import Mathlib

/-
Shallow embedding of the Schneider Gateway API backend
(src/app/core/backend.py, class SchneiderGatewayBackend), with the
HTTP-boundary error mapping of src/app/api/routes.py.

Network traffic is modelled by an oracle `Env` giving the outcome of the
k-th HTTP request issued by the backend; each backend method threads an
explicit state `St` recording the session cookie, the next oracle index,
the trace of issued requests and the list of configs persisted via
save_config.  Python exceptions are modelled by `PyErr` (fastapi
HTTPException, and an uncaught KeyError from a dict subscript); a method
that can raise returns `Except PyErr`.
-/

namespace SchneiderGateway

/-- A JSON value as it appears in the RPC parameter dicts built by
`control_device` / `read_device_status`. -/
inductive JVal where
  | s (v : String)
  | i (v : Int)
  | arr (v : List Int)
  deriving DecidableEq, Repr

/-- One device entry of `config['devices']`: location, type, entity and the
IR code table `ir_codes` (code name to int sequence). -/
structure DeviceConfig where
  location : String
  type : String
  entity : String
  ir_codes : List (String × List Int)
  deriving DecidableEq, Repr

/-- The loaded YAML config: gateway_ip, username, password, cookie, and the
device catalog keyed by name (insertion order kept, as a Python dict). -/
structure Config where
  gateway_ip : String
  username : String
  password : String
  cookie : String
  devices : List (String × DeviceConfig)
  deriving DecidableEq, Repr

/-- The mutable backend object: the loaded config and the session cookie
field `self.cookie`. -/
structure Backend where
  config : Config
  cookie : String
  deriving DecidableEq, Repr

/-- Outcome of one HTTP request made through the `requests` library:
either a response (status code, response cookies, parsed json body) or a
raised `requests.RequestException` with its message. -/
inductive NetResp where
  | ok (status : Nat) (cookies : List (String × String)) (body : String)
  | exn (msg : String)
  deriving DecidableEq, Repr

/-- The environment: `resp k` is the outcome of the k-th HTTP request the
process issues, and `now` is `int(time.time())`. -/
structure Env where
  resp : Nat → NetResp
  now : Nat

/-- A request issued by the backend, labelled by its three distinct call
sites: the session probe GET (is_cookie_valid), the login GET, and the
JSON-RPC POST to the rpc_bridge. -/
inductive Call where
  | probe (url : String) (cookie : String)
  | loginReq (url : String)
  | rpc (url : String) (method : String) (params : List (String × JVal))
      (transId : Nat) (cookie : String)
  deriving DecidableEq, Repr

/-- A Python exception escaping a backend method: a fastapi HTTPException
(status code and detail), or an uncaught KeyError from a dict subscript
such as `device_config['ir_codes']['power_on']`. -/
inductive PyErr where
  | httpException (status : Nat) (detail : String)
  | keyError (key : String)
  deriving DecidableEq, Repr

/-- Process state threaded through the backend methods: the backend
object, the index of the next oracle response, the trace of issued
requests, and the configs written by save_config, in order. -/
structure St where
  backend : Backend
  idx : Nat
  calls : List Call
  saved : List Config

/-- Python dict lookup `m.get(k)` on an association list. -/
def lookup' {α : Type} (m : List (String × α)) (k : String) : Option α :=
  (m.find? (fun p => p.1 == k)).map Prod.snd

/-- `self.base_url = f"http://{self.config['gateway_ip']}"`. -/
def base_url (b : Backend) : String :=
  "http://" ++ b.config.gateway_ip

/-- State of a fresh backend: `__init__` loads the config and sets
`self.cookie = self.config.get('cookie', '')`. -/
def initSt (cfg : Config) : St :=
  { backend := { config := cfg, cookie := cfg.cookie },
    idx := 0, calls := [], saved := [] }

/-- `is_cookie_valid`: GET `<base_url>/home.html` with the cached cookie
and Basic-Auth; returns `status_code == 200`; a RequestException is caught
and yields `False` (hence the total return type `Bool`). -/
def is_cookie_valid (env : Env) (s : St) : Bool × St :=
  let url := base_url s.backend ++ "/home.html"
  let s' : St := { s with
      idx := s.idx + 1,
      calls := s.calls ++ [Call.probe url s.backend.cookie] }
  match env.resp s.idx with
  | NetResp.ok status _ _ => (status == 200, s')
  | NetResp.exn _ => (false, s')

/-- `login`: GET `<base_url>/cgi-bin/admin` with Basic-Auth.  On 200,
take `response.cookies.get('user_id', '')`, store it in `self.cookie` and
`self.config['cookie']`, and save_config.  On any other status raise
HTTPException 401 "Login failed"; on RequestException raise
HTTPException 500. -/
def login (env : Env) (s : St) : Except PyErr Unit × St :=
  let url := base_url s.backend ++ "/cgi-bin/admin"
  let s' : St := { s with
      idx := s.idx + 1,
      calls := s.calls ++ [Call.loginReq url] }
  match env.resp s.idx with
  | NetResp.ok status cookies _ =>
      if status == 200 then
        let newCookie := (lookup' cookies "user_id").getD ""
        let config' := { s'.backend.config with cookie := newCookie }
        (Except.ok (),
          { s' with
              backend := { config := config', cookie := newCookie },
              saved := s'.saved ++ [config'] })
      else
        (Except.error (PyErr.httpException 401 "Login failed"), s')
  | NetResp.exn msg =>
      (Except.error
        (PyErr.httpException 500 ("Login request failed: " ++ msg)), s')

/-- The session preamble shared by `control_device` and
`read_device_status`: `if not self.is_cookie_valid(): self.login()`. -/
def ensure_session (env : Env) (s : St) : Except PyErr Unit × St :=
  match is_cookie_valid env s with
  | (true, s1) => (Except.ok (), s1)
  | (false, s1) => login env s1

/-- The (device type, action) dispatch of `control_device`, returning the
RPC method name and parameter dict, or the raised exception.  Reproduces
the branch structure of backend.py lines 116-160 exactly, including the
AC branch where `ir_code` starts as `[]` and an unmatched action falls
through with it unchanged. -/
def dispatch (dc : DeviceConfig) (action : String) (level : Option Int)
    (ac_mode : Option String) (temperature : Option Int) :
    Except PyErr (String × List (String × JVal)) :=
  if dc.type == "DIMMER" then
    if action == "on" then
      Except.ok ("RPC_ZCL_Set_OnOffTog",
        [("entity", JVal.s dc.entity), ("action", JVal.i 1)])
    else if action == "off" then
      Except.ok ("RPC_ZCL_Set_OnOffTog",
        [("entity", JVal.s dc.entity), ("action", JVal.i 0)])
    else if action == "dim" then
      match level with
      | none =>
          Except.error (PyErr.httpException 400 "Level is required for dimming")
      | some l =>
          Except.ok ("RPC_ZCL_Move_To",
            [("entity", JVal.s dc.entity), ("level", JVal.i l),
             ("transTime", JVal.i 0)])
    else
      Except.error (PyErr.httpException 400 "Invalid action for DIMMER")
  else if dc.type == "SWITCH" then
    if action == "on" || action == "off" then
      Except.ok ("RPC_ZCL_Set_OnOffTog",
        [("entity", JVal.s dc.entity),
         ("action", JVal.i (if action == "on" then 1 else 0))])
    else
      Except.error (PyErr.httpException 400 "Invalid action for SWITCH")
  else if dc.type == "AC" then
    let irRes : Except PyErr (List Int) :=
      if action == "on" then
        match lookup' dc.ir_codes "power_on" with
        | some c => Except.ok c
        | none => Except.error (PyErr.keyError "power_on")
      else if action == "off" then
        match lookup' dc.ir_codes "power_off" with
        | some c => Except.ok c
        | none => Except.error (PyErr.keyError "power_off")
      else if action == "set_mode" then
        if ac_mode == some "cool" then
          match lookup' dc.ir_codes "cool_mode" with
          | some c => Except.ok c
          | none => Except.error (PyErr.keyError "cool_mode")
        else if ac_mode == some "heat" then
          match lookup' dc.ir_codes "heat_mode" with
          | some c => Except.ok c
          | none => Except.error (PyErr.keyError "heat_mode")
        else Except.ok []
      else if action == "set_temperature" then
        match temperature with
        | some t => Except.ok ((lookup' dc.ir_codes ("temp_" ++ toString t)).getD [])
        | none => Except.ok []
      else Except.ok []
    irRes.map (fun ir =>
      ("RPC_ZCL_Send_IR_Code",
       [("entity", JVal.s dc.entity), ("index", JVal.i 1),
        ("repeat", JVal.i 0), ("codeType", JVal.i 0),
        ("irCode", JVal.arr ir)]))
  else
    Except.error (PyErr.httpException 400 "Unsupported device type")

/-- The part of `control_device` after the session preamble: device
lookup (404 when absent), dispatch, then the single JSON-RPC POST whose
non-200 status raises HTTPException with that same upstream status and
whose RequestException raises HTTPException 500. -/
def control_device_rest (env : Env) (s1 : St) (device_name action : String)
    (level : Option Int) (ac_mode : Option String)
    (temperature : Option Int) : Except PyErr String × St :=
  match lookup' s1.backend.config.devices device_name with
  | none =>
      (Except.error (PyErr.httpException 404
        ("Device " ++ device_name ++ " not found in configuration")), s1)
  | some dc =>
      match dispatch dc action level ac_mode temperature with
      | Except.error e => (Except.error e, s1)
      | Except.ok (method, params) =>
          let url := base_url s1.backend ++ "/cgi-bin/rpc_bridge"
          let s2 : St := { s1 with
              idx := s1.idx + 1,
              calls := s1.calls ++
                [Call.rpc url method params env.now s1.backend.cookie] }
          match env.resp s1.idx with
          | NetResp.ok status _ body =>
              if status == 200 then (Except.ok body, s2)
              else
                (Except.error
                  (PyErr.httpException status "Device control failed"), s2)
          | NetResp.exn msg =>
              (Except.error (PyErr.httpException 500
                ("Device control request failed: " ++ msg)), s2)

/-- `control_device(device_name, action, level, ac_mode, temperature)`. -/
def control_device (env : Env) (s : St) (device_name action : String)
    (level : Option Int) (ac_mode : Option String)
    (temperature : Option Int) : Except PyErr String × St :=
  match ensure_session env s with
  | (Except.error e, s1) => (Except.error e, s1)
  | (Except.ok _, s1) =>
      control_device_rest env s1 device_name action level ac_mode temperature

/-- The status-query method list of `read_device_status` by device type;
any type other than DIMMER and SWITCH raises HTTPException 400. -/
def statusMethods (dc : DeviceConfig) : Except PyErr (List String) :=
  if dc.type == "DIMMER" then
    Except.ok ["RPC_ZCL_Get_OnOff", "RPC_ZCL_Get_Level"]
  else if dc.type == "SWITCH" then
    Except.ok ["RPC_ZCL_Get_OnOff"]
  else
    Except.error
      (PyErr.httpException 400 "Unsupported device type for status reading")

/-- The query loop of `read_device_status`: one JSON-RPC POST per method,
in order; a non-200 status raises HTTPException with the upstream status,
a RequestException raises HTTPException 500, and either stops the loop so
the collected partial results are discarded. -/
def runQueries (env : Env) (dc : DeviceConfig) :
    List String → St → List (String × String) →
    Except PyErr (List (String × String)) × St
  | [], s, acc => (Except.ok acc, s)
  | m :: ms, s, acc =>
      let url := base_url s.backend ++ "/cgi-bin/rpc_bridge"
      let params := [("entity", JVal.s dc.entity)]
      let s1 : St := { s with
          idx := s.idx + 1,
          calls := s.calls ++
            [Call.rpc url m params env.now s.backend.cookie] }
      match env.resp s.idx with
      | NetResp.ok status _ body =>
          if status == 200 then runQueries env dc ms s1 (acc ++ [(m, body)])
          else
            (Except.error
              (PyErr.httpException status "Device status read failed"), s1)
      | NetResp.exn msg =>
          (Except.error (PyErr.httpException 500
            ("Device status read request failed: " ++ msg)), s1)

/-- The part of `read_device_status` after the session preamble. -/
def read_device_status_rest (env : Env) (s1 : St) (device_name : String) :
    Except PyErr (List (String × String)) × St :=
  match lookup' s1.backend.config.devices device_name with
  | none =>
      (Except.error (PyErr.httpException 404
        ("Device " ++ device_name ++ " not found in configuration")), s1)
  | some dc =>
      match statusMethods dc with
      | Except.error e => (Except.error e, s1)
      | Except.ok ms => runQueries env dc ms s1 []

/-- `read_device_status(device_name)`. -/
def read_device_status (env : Env) (s : St) (device_name : String) :
    Except PyErr (List (String × String)) × St :=
  match ensure_session env s with
  | (Except.error e, s1) => (Except.error e, s1)
  | (Except.ok _, s1) => read_device_status_rest env s1 device_name

/-- The HTTP status a raised exception surfaces with at the route layer
(app/api/routes.py): an HTTPException is re-raised unchanged, any other
exception (here: KeyError) becomes a 500. -/
def httpStatusOf : PyErr → Nat
  | PyErr.httpException st _ => st
  | PyErr.keyError _ => 500

/-- The surfaced HTTP status of a backend result: `some status` when the
call raised, `none` when it succeeded. -/
def resultStatus {α : Type} : Except PyErr α → Option Nat
  | Except.error e => some (httpStatusOf e)
  | Except.ok _ => none

/-- Trace predicate: the request is the session probe GET. -/
def isProbe : Call → Bool
  | Call.probe _ _ => true
  | _ => false

/-- Trace predicate: the request is the login GET. -/
def isLogin : Call → Bool
  | Call.loginReq _ => true
  | _ => false

/-- Trace predicate: the request is a JSON-RPC POST to the rpc_bridge. -/
def isRpc : Call → Bool
  | Call.rpc _ _ _ _ _ => true
  | _ => false

/-- The JSON-RPC POSTs of a trace, in order. -/
def rpcCalls (cs : List Call) : List Call := cs.filter isRpc

/-- The RPC method names of a trace, in order. -/
def rpcMethods (cs : List Call) : List String :=
  (rpcCalls cs).map (fun c =>
    match c with
    | Call.rpc _ m _ _ _ => m
    | _ => "")

/-- Whether the first element of a trace satisfies a predicate. -/
def headIs (p : Call → Bool) : List Call → Bool
  | [] => false
  | c :: _ => p c

/-! ### Concrete fixtures for witnesses and counterexamples -/

/-- A SWITCH device fixture. -/
def dcSW : DeviceConfig :=
  { location := "Hall", type := "SWITCH", entity := "E1", ir_codes := [] }

/-- A DIMMER device fixture. -/
def dcDM : DeviceConfig :=
  { location := "Living", type := "DIMMER", entity := "E2", ir_codes := [] }

/-- An AC device fixture whose IR table has power codes and a cool mode. -/
def dcAC : DeviceConfig :=
  { location := "Bed", type := "AC", entity := "E3",
    ir_codes := [("power_on", [1, 2]), ("power_off", [3]), ("cool_mode", [4])] }

/-- An AC device fixture whose IR table is empty. -/
def dcACbare : DeviceConfig :=
  { location := "Den", type := "AC", entity := "E4", ir_codes := [] }

/-- A config fixture holding all the device fixtures. -/
def cfg0 : Config :=
  { gateway_ip := "10.0.0.2", username := "admin", password := "pw",
    cookie := "c0",
    devices := [("sw1", dcSW), ("dm1", dcDM), ("ac1", dcAC), ("ac2", dcACbare)] }

/-- Build an environment from a finite script of responses; requests past
the end of the script fail at the transport level. -/
def envOf (rs : List NetResp) : Env :=
  { resp := fun k => rs.getD k (NetResp.exn "connection refused"),
    now := 1700000000 }

/-! ### Helper lemmas on the session preamble -/

/-- The state after a successful session probe from a fresh backend. -/
def validSt (cfg : Config) : St :=
  { backend := { config := cfg, cookie := cfg.cookie },
    idx := 1,
    calls := [Call.probe ("http://" ++ cfg.gateway_ip ++ "/home.html") cfg.cookie],
    saved := [] }

theorem ensure_session_of_valid (env : Env) (cfg : Config)
    (c0 : List (String × String)) (b0 : String)
    (hprobe : env.resp 0 = NetResp.ok 200 c0 b0) :
    ensure_session env (initSt cfg) = (Except.ok (), validSt cfg) := by
  simp [ensure_session, is_cookie_valid, initSt, validSt, base_url, hprobe]

theorem control_device_of_valid (env : Env) (cfg : Config)
    (name action : String) (level : Option Int) (ac_mode : Option String)
    (temperature : Option Int)
    (c0 : List (String × String)) (b0 : String)
    (hprobe : env.resp 0 = NetResp.ok 200 c0 b0) :
    control_device env (initSt cfg) name action level ac_mode temperature =
      control_device_rest env (validSt cfg) name action level ac_mode temperature := by
  simp [control_device, ensure_session_of_valid env cfg c0 b0 hprobe]

theorem read_device_status_of_valid (env : Env) (cfg : Config)
    (name : String) (c0 : List (String × String)) (b0 : String)
    (hprobe : env.resp 0 = NetResp.ok 200 c0 b0) :
    read_device_status env (initSt cfg) name =
      read_device_status_rest env (validSt cfg) name := by
  simp [read_device_status, ensure_session_of_valid env cfg c0 b0 hprobe]

/-! ### Claim theorems -/

/-- C8: `is_cookie_valid` returns true iff the gateway answers the probe
with a success status (200); when the request raises a transport
exception it returns false, and — its return type being a total `Bool`,
matching the `except requests.RequestException: return False` in the
source — no error propagates to the caller. -/
theorem C8_cookie_probe (env : Env) (s : St) :
    (∀ st cs b, env.resp s.idx = NetResp.ok st cs b →
      ((is_cookie_valid env s).1 = true ↔ st = 200)) ∧
    (∀ msg, env.resp s.idx = NetResp.exn msg →
      (is_cookie_valid env s).1 = false) := by
  refine ⟨fun st cs b h => ?_, fun msg h => ?_⟩
  · simp [is_cookie_valid, h]
  · simp [is_cookie_valid, h]

/-- Witness for C8 at concrete inputs: a 200 probe yields true, a
non-200 probe yields false, a transport failure yields false. -/
theorem C8_cookie_probe_witness :
    (is_cookie_valid (envOf [NetResp.ok 200 [] "home"]) (initSt cfg0)).1 = true ∧
    (is_cookie_valid (envOf [NetResp.ok 403 [] "no"]) (initSt cfg0)).1 = false ∧
    (is_cookie_valid (envOf [NetResp.exn "refused"]) (initSt cfg0)).1 = false := by
  refine ⟨?_, ?_, ?_⟩
  · exact ((C8_cookie_probe (envOf [NetResp.ok 200 [] "home"]) (initSt cfg0)).1
      200 [] "home" rfl).mpr rfl
  · by_contra hc
    have h := ((C8_cookie_probe (envOf [NetResp.ok 403 [] "no"]) (initSt cfg0)).1
      403 [] "no" rfl).mp (by revert hc; decide)
    exact absurd h (by decide)
  · exact (C8_cookie_probe (envOf [NetResp.exn "refused"]) (initSt cfg0)).2
      "refused" rfl

/-- C10: when `login` gets a 200 response that carries no `user_id`
cookie, the session cookie becomes the empty string, the config persisted
by save_config holds that empty string, and login reports success. -/
theorem C10_login_empty_cookie (env : Env) (cfg : Config)
    (cs : List (String × String)) (b : String)
    (h1 : env.resp 0 = NetResp.ok 200 cs b)
    (h2 : lookup' cs "user_id" = none) :
    (login env (initSt cfg)).1 = Except.ok () ∧
    ((login env (initSt cfg)).2).backend.cookie = "" ∧
    ((login env (initSt cfg)).2).saved = [{ cfg with cookie := "" }] := by
  simp [login, initSt, h1, h2]

/-- Witness for C10: a 200 login response whose cookies lack user_id. -/
theorem C10_login_empty_cookie_witness :
    (login (envOf [NetResp.ok 200 [("other", "x")] "body"]) (initSt cfg0)).1 =
      Except.ok () ∧
    ((login (envOf [NetResp.ok 200 [("other", "x")] "body"]) (initSt cfg0)).2).backend.cookie = "" ∧
    ((login (envOf [NetResp.ok 200 [("other", "x")] "body"]) (initSt cfg0)).2).saved =
      [{ cfg0 with cookie := "" }] :=
  C10_login_empty_cookie (envOf [NetResp.ok 200 [("other", "x")] "body"]) cfg0
    [("other", "x")] "body" rfl (by decide)

/-- C7: on a DIMMER, `control_device` with action dim and no level fails
with HTTPException 400 "Level is required for dimming"
(MissingParameterError); with a level present it sends the
RPC_ZCL_Move_To method whose params are the device entity, the given
level and transTime 0. -/
theorem C7_dimmer_dim (env : Env) (cfg : Config) (name : String)
    (dc : DeviceConfig) (l : Int)
    (hdev : lookup' cfg.devices name = some dc)
    (hty : dc.type = "DIMMER")
    (c0 : List (String × String)) (b0 : String)
    (hprobe : env.resp 0 = NetResp.ok 200 c0 b0)
    (c1 : List (String × String)) (b1 : String)
    (hpost : env.resp 1 = NetResp.ok 200 c1 b1) :
    (control_device env (initSt cfg) name "dim" none none none).1 =
      Except.error (PyErr.httpException 400 "Level is required for dimming") ∧
    resultStatus (control_device env (initSt cfg) name "dim" none none none).1 =
      some 400 ∧
    (control_device env (initSt cfg) name "dim" (some l) none none).1 =
      Except.ok b1 ∧
    rpcCalls ((control_device env (initSt cfg) name "dim" (some l) none none).2).calls =
      [Call.rpc ("http://" ++ cfg.gateway_ip ++ "/cgi-bin/rpc_bridge")
        "RPC_ZCL_Move_To"
        [("entity", JVal.s dc.entity), ("level", JVal.i l),
         ("transTime", JVal.i 0)]
        env.now cfg.cookie] := by
  rw [control_device_of_valid env cfg name "dim" none none none c0 b0 hprobe,
      control_device_of_valid env cfg name "dim" (some l) none none c0 b0 hprobe]
  simp [control_device_rest, dispatch, validSt, base_url, hdev, hty, hpost,
    resultStatus, httpStatusOf, rpcCalls, isRpc]

/-- Witness for C7 on the dm1 fixture. -/
theorem C7_dimmer_dim_witness :
    (control_device (envOf [NetResp.ok 200 [] "h", NetResp.ok 200 [] "r"])
        (initSt cfg0) "dm1" "dim" none none none).1 =
      Except.error (PyErr.httpException 400 "Level is required for dimming") ∧
    resultStatus (control_device (envOf [NetResp.ok 200 [] "h", NetResp.ok 200 [] "r"])
        (initSt cfg0) "dm1" "dim" none none none).1 = some 400 ∧
    (control_device (envOf [NetResp.ok 200 [] "h", NetResp.ok 200 [] "r"])
        (initSt cfg0) "dm1" "dim" (some 50) none none).1 = Except.ok "r" ∧
    rpcCalls ((control_device (envOf [NetResp.ok 200 [] "h", NetResp.ok 200 [] "r"])
        (initSt cfg0) "dm1" "dim" (some 50) none none).2).calls =
      [Call.rpc ("http://" ++ cfg0.gateway_ip ++ "/cgi-bin/rpc_bridge")
        "RPC_ZCL_Move_To"
        [("entity", JVal.s dcDM.entity), ("level", JVal.i 50),
         ("transTime", JVal.i 0)]
        (envOf [NetResp.ok 200 [] "h", NetResp.ok 200 [] "r"]).now cfg0.cookie] :=
  C7_dimmer_dim (envOf [NetResp.ok 200 [] "h", NetResp.ok 200 [] "r"]) cfg0
    "dm1" dcDM 50 (by decide) rfl [] "h" rfl [] "r" rfl

/-- C6: on an AC device, `control_device` with action set_mode and an
ac_mode outside cool/heat raises no error: the RPC is sent with
irCode equal to the empty sequence; likewise action set_temperature with
a provided temperature whose temp code is absent from the IR table. -/
theorem C6_ac_empty_ircode (env : Env) (cfg : Config) (name : String)
    (dc : DeviceConfig) (m : Option String) (t : Int)
    (hdev : lookup' cfg.devices name = some dc)
    (hty : dc.type = "AC")
    (hmc : m ≠ some "cool") (hmh : m ≠ some "heat")
    (htemp : lookup' dc.ir_codes ("temp_" ++ toString t) = none)
    (c0 : List (String × String)) (b0 : String)
    (hprobe : env.resp 0 = NetResp.ok 200 c0 b0)
    (c1 : List (String × String)) (b1 : String)
    (hpost : env.resp 1 = NetResp.ok 200 c1 b1) :
    (control_device env (initSt cfg) name "set_mode" none m none).1 =
      Except.ok b1 ∧
    rpcCalls ((control_device env (initSt cfg) name "set_mode" none m none).2).calls =
      [Call.rpc ("http://" ++ cfg.gateway_ip ++ "/cgi-bin/rpc_bridge")
        "RPC_ZCL_Send_IR_Code"
        [("entity", JVal.s dc.entity), ("index", JVal.i 1),
         ("repeat", JVal.i 0), ("codeType", JVal.i 0),
         ("irCode", JVal.arr [])]
        env.now cfg.cookie] ∧
    (control_device env (initSt cfg) name "set_temperature" none none (some t)).1 =
      Except.ok b1 ∧
    rpcCalls ((control_device env (initSt cfg) name "set_temperature" none none (some t)).2).calls =
      [Call.rpc ("http://" ++ cfg.gateway_ip ++ "/cgi-bin/rpc_bridge")
        "RPC_ZCL_Send_IR_Code"
        [("entity", JVal.s dc.entity), ("index", JVal.i 1),
         ("repeat", JVal.i 0), ("codeType", JVal.i 0),
         ("irCode", JVal.arr [])]
        env.now cfg.cookie] := by
  have hc : (m == some "cool") = false := by simp [hmc]
  have hh : (m == some "heat") = false := by simp [hmh]
  rw [control_device_of_valid env cfg name "set_mode" none m none c0 b0 hprobe,
      control_device_of_valid env cfg name "set_temperature" none none (some t)
        c0 b0 hprobe]
  simp [control_device_rest, dispatch, validSt, base_url, hdev, hty, hc, hh,
    htemp, hpost, rpcCalls, isRpc, Except.map]

/-- Witness for C6 on the bare AC fixture with ac_mode "fan" and
temperature 25. -/
theorem C6_ac_empty_ircode_witness :
    (control_device (envOf [NetResp.ok 200 [] "h", NetResp.ok 200 [] "r"])
        (initSt cfg0) "ac2" "set_mode" none (some "fan") none).1 =
      Except.ok "r" ∧
    rpcCalls ((control_device (envOf [NetResp.ok 200 [] "h", NetResp.ok 200 [] "r"])
        (initSt cfg0) "ac2" "set_mode" none (some "fan") none).2).calls =
      [Call.rpc ("http://" ++ cfg0.gateway_ip ++ "/cgi-bin/rpc_bridge")
        "RPC_ZCL_Send_IR_Code"
        [("entity", JVal.s dcACbare.entity), ("index", JVal.i 1),
         ("repeat", JVal.i 0), ("codeType", JVal.i 0),
         ("irCode", JVal.arr [])]
        (envOf [NetResp.ok 200 [] "h", NetResp.ok 200 [] "r"]).now cfg0.cookie] ∧
    (control_device (envOf [NetResp.ok 200 [] "h", NetResp.ok 200 [] "r"])
        (initSt cfg0) "ac2" "set_temperature" none none (some 25)).1 =
      Except.ok "r" ∧
    rpcCalls ((control_device (envOf [NetResp.ok 200 [] "h", NetResp.ok 200 [] "r"])
        (initSt cfg0) "ac2" "set_temperature" none none (some 25)).2).calls =
      [Call.rpc ("http://" ++ cfg0.gateway_ip ++ "/cgi-bin/rpc_bridge")
        "RPC_ZCL_Send_IR_Code"
        [("entity", JVal.s dcACbare.entity), ("index", JVal.i 1),
         ("repeat", JVal.i 0), ("codeType", JVal.i 0),
         ("irCode", JVal.arr [])]
        (envOf [NetResp.ok 200 [] "h", NetResp.ok 200 [] "r"]).now cfg0.cookie] :=
  C6_ac_empty_ircode (envOf [NetResp.ok 200 [] "h", NetResp.ok 200 [] "r"])
    cfg0 "ac2" dcACbare (some "fan") 25 (by decide) rfl (by decide) (by decide)
    (by decide) [] "h" rfl [] "r" rfl

/-- C9: on an AC device whose IR table lacks the power_on (resp.
power_off) entry, `control_device` with action on (resp. off) raises the
KeyError of the dict subscript — surfacing as HTTP 500, the status of
the spec's ConfigurationError bucket — and no RPC request is sent. -/
theorem C9_ac_missing_power_code (env : Env) (cfg : Config) (name : String)
    (dc : DeviceConfig)
    (hdev : lookup' cfg.devices name = some dc)
    (hty : dc.type = "AC")
    (hon : lookup' dc.ir_codes "power_on" = none)
    (hoff : lookup' dc.ir_codes "power_off" = none)
    (c0 : List (String × String)) (b0 : String)
    (hprobe : env.resp 0 = NetResp.ok 200 c0 b0) :
    (control_device env (initSt cfg) name "on" none none none).1 =
      Except.error (PyErr.keyError "power_on") ∧
    resultStatus (control_device env (initSt cfg) name "on" none none none).1 =
      some 500 ∧
    rpcCalls ((control_device env (initSt cfg) name "on" none none none).2).calls = [] ∧
    (control_device env (initSt cfg) name "off" none none none).1 =
      Except.error (PyErr.keyError "power_off") ∧
    rpcCalls ((control_device env (initSt cfg) name "off" none none none).2).calls = [] := by
  rw [control_device_of_valid env cfg name "on" none none none c0 b0 hprobe,
      control_device_of_valid env cfg name "off" none none none c0 b0 hprobe]
  simp [control_device_rest, dispatch, validSt, base_url, hdev, hty, hon, hoff,
    resultStatus, httpStatusOf, rpcCalls, isRpc, Except.map]

/-- Witness for C9 on the bare AC fixture. -/
theorem C9_ac_missing_power_code_witness :
    (control_device (envOf [NetResp.ok 200 [] "h"])
        (initSt cfg0) "ac2" "on" none none none).1 =
      Except.error (PyErr.keyError "power_on") ∧
    resultStatus (control_device (envOf [NetResp.ok 200 [] "h"])
        (initSt cfg0) "ac2" "on" none none none).1 = some 500 ∧
    rpcCalls ((control_device (envOf [NetResp.ok 200 [] "h"])
        (initSt cfg0) "ac2" "on" none none none).2).calls = [] ∧
    (control_device (envOf [NetResp.ok 200 [] "h"])
        (initSt cfg0) "ac2" "off" none none none).1 =
      Except.error (PyErr.keyError "power_off") ∧
    rpcCalls ((control_device (envOf [NetResp.ok 200 [] "h"])
        (initSt cfg0) "ac2" "off" none none none).2).calls = [] :=
  C9_ac_missing_power_code (envOf [NetResp.ok 200 [] "h"]) cfg0 "ac2" dcACbare
    (by decide) rfl (by decide) (by decide) [] "h" rfl

/-- C5: `read_device_status` on a SWITCH issues exactly one RPC (on/off
state); on a DIMMER exactly two, on/off state before level; on any other
device type it fails with HTTPException 400 (UnsupportedDeviceTypeError)
issuing no RPC; and when the first DIMMER query fails, the level query is
not issued and the result is the error, not a partial mapping. -/
theorem C5_read_status (env : Env) (cfg : Config) (name : String)
    (dc : DeviceConfig)
    (hdev : lookup' cfg.devices name = some dc)
    (c0 : List (String × String)) (b0 : String)
    (hprobe : env.resp 0 = NetResp.ok 200 c0 b0) :
    (dc.type = "SWITCH" → ∀ c1 b1, env.resp 1 = NetResp.ok 200 c1 b1 →
      (read_device_status env (initSt cfg) name).1 =
        Except.ok [("RPC_ZCL_Get_OnOff", b1)] ∧
      rpcMethods ((read_device_status env (initSt cfg) name).2).calls =
        ["RPC_ZCL_Get_OnOff"]) ∧
    (dc.type = "DIMMER" → ∀ c1 b1 c2 b2, env.resp 1 = NetResp.ok 200 c1 b1 →
      env.resp 2 = NetResp.ok 200 c2 b2 →
      (read_device_status env (initSt cfg) name).1 =
        Except.ok [("RPC_ZCL_Get_OnOff", b1), ("RPC_ZCL_Get_Level", b2)] ∧
      rpcMethods ((read_device_status env (initSt cfg) name).2).calls =
        ["RPC_ZCL_Get_OnOff", "RPC_ZCL_Get_Level"]) ∧
    (dc.type ≠ "DIMMER" → dc.type ≠ "SWITCH" →
      (read_device_status env (initSt cfg) name).1 =
        Except.error
          (PyErr.httpException 400 "Unsupported device type for status reading") ∧
      rpcCalls ((read_device_status env (initSt cfg) name).2).calls = []) ∧
    (dc.type = "DIMMER" → ∀ st c1 b1, st ≠ 200 →
      env.resp 1 = NetResp.ok st c1 b1 →
      (read_device_status env (initSt cfg) name).1 =
        Except.error (PyErr.httpException st "Device status read failed") ∧
      rpcMethods ((read_device_status env (initSt cfg) name).2).calls =
        ["RPC_ZCL_Get_OnOff"]) := by
  rw [read_device_status_of_valid env cfg name c0 b0 hprobe]
  refine ⟨fun hty c1 b1 h1 => ?_, fun hty c1 b1 c2 b2 h1 h2 => ?_,
    fun hty1 hty2 => ?_, fun hty st c1 b1 hst h1 => ?_⟩
  · simp [read_device_status_rest, statusMethods, runQueries, validSt,
      base_url, hdev, hty, h1, rpcMethods, rpcCalls, isRpc]
  · simp [read_device_status_rest, statusMethods, runQueries, validSt,
      base_url, hdev, hty, h1, h2, rpcMethods, rpcCalls, isRpc]
  · have t1 : (dc.type == "DIMMER") = false := by simp [hty1]
    have t2 : (dc.type == "SWITCH") = false := by simp [hty2]
    simp [read_device_status_rest, statusMethods, validSt, base_url, hdev,
      t1, t2, rpcCalls, isRpc]
  · have hne : (st == 200) = false := by simp [hst]
    simp [read_device_status_rest, statusMethods, runQueries, validSt,
      base_url, hdev, hty, h1, hne, rpcMethods, rpcCalls, isRpc]

/-- Witness for C5: the SWITCH, DIMMER, AC-rejection and abort-on-failure
scenarios at concrete inputs. -/
theorem C5_read_status_witness :
    (read_device_status (envOf [NetResp.ok 200 [] "h", NetResp.ok 200 [] "s1"])
        (initSt cfg0) "sw1").1 = Except.ok [("RPC_ZCL_Get_OnOff", "s1")] ∧
    (read_device_status
        (envOf [NetResp.ok 200 [] "h", NetResp.ok 200 [] "s1", NetResp.ok 200 [] "s2"])
        (initSt cfg0) "dm1").1 =
      Except.ok [("RPC_ZCL_Get_OnOff", "s1"), ("RPC_ZCL_Get_Level", "s2")] ∧
    rpcMethods ((read_device_status
        (envOf [NetResp.ok 200 [] "h", NetResp.ok 200 [] "s1", NetResp.ok 200 [] "s2"])
        (initSt cfg0) "dm1").2).calls =
      ["RPC_ZCL_Get_OnOff", "RPC_ZCL_Get_Level"] ∧
    (read_device_status (envOf [NetResp.ok 200 [] "h"]) (initSt cfg0) "ac1").1 =
      Except.error
        (PyErr.httpException 400 "Unsupported device type for status reading") ∧
    rpcCalls ((read_device_status (envOf [NetResp.ok 200 [] "h"])
        (initSt cfg0) "ac1").2).calls = [] ∧
    (read_device_status (envOf [NetResp.ok 200 [] "h", NetResp.ok 503 [] "x"])
        (initSt cfg0) "dm1").1 =
      Except.error (PyErr.httpException 503 "Device status read failed") ∧
    rpcMethods ((read_device_status
        (envOf [NetResp.ok 200 [] "h", NetResp.ok 503 [] "x"])
        (initSt cfg0) "dm1").2).calls = ["RPC_ZCL_Get_OnOff"] := by
  refine ⟨?_, ?_, ?_, ?_, ?_, ?_, ?_⟩
  · exact ((C5_read_status (envOf [NetResp.ok 200 [] "h", NetResp.ok 200 [] "s1"])
      cfg0 "sw1" dcSW (by decide) [] "h" rfl).1 rfl [] "s1" rfl).1
  · exact ((C5_read_status
      (envOf [NetResp.ok 200 [] "h", NetResp.ok 200 [] "s1", NetResp.ok 200 [] "s2"])
      cfg0 "dm1" dcDM (by decide) [] "h" rfl).2.1 rfl [] "s1" [] "s2" rfl rfl).1
  · exact ((C5_read_status
      (envOf [NetResp.ok 200 [] "h", NetResp.ok 200 [] "s1", NetResp.ok 200 [] "s2"])
      cfg0 "dm1" dcDM (by decide) [] "h" rfl).2.1 rfl [] "s1" [] "s2" rfl rfl).2
  · exact ((C5_read_status (envOf [NetResp.ok 200 [] "h"])
      cfg0 "ac1" dcAC (by decide) [] "h" rfl).2.2.1 (by decide) (by decide)).1
  · exact ((C5_read_status (envOf [NetResp.ok 200 [] "h"])
      cfg0 "ac1" dcAC (by decide) [] "h" rfl).2.2.1 (by decide) (by decide)).2
  · exact ((C5_read_status (envOf [NetResp.ok 200 [] "h", NetResp.ok 503 [] "x"])
      cfg0 "dm1" dcDM (by decide) [] "h" rfl).2.2.2 rfl 503 [] "x"
      (by decide) rfl).1
  · exact ((C5_read_status (envOf [NetResp.ok 200 [] "h", NetResp.ok 503 [] "x"])
      cfg0 "dm1" dcDM (by decide) [] "h" rfl).2.2.2 rfl 503 [] "x"
      (by decide) rfl).2

/-- C1 counterexample: on the AC fixture, `control_device` with the
unknown action "blast" does not fail with a 400 — it returns the gateway
body — and an RPC request IS sent, refuting the claim that any action
outside the four listed fails with InvalidActionError with no RPC. -/
theorem C1_counterexample :
    (control_device (envOf [NetResp.ok 200 [] "h", NetResp.ok 200 [] "r"])
        (initSt cfg0) "ac1" "blast" none none none).1 = Except.ok "r" ∧
    resultStatus (control_device (envOf [NetResp.ok 200 [] "h", NetResp.ok 200 [] "r"])
        (initSt cfg0) "ac1" "blast" none none none).1 ≠ some 400 ∧
    rpcCalls ((control_device (envOf [NetResp.ok 200 [] "h", NetResp.ok 200 [] "r"])
        (initSt cfg0) "ac1" "blast" none none none).2).calls ≠ [] :=
  ⟨rfl, by decide, by decide⟩

/-- C1 amended: on an AC device, an action outside
on/off/set_mode/set_temperature raises no InvalidActionError: the AC
branch has no else-raise, so the action falls through with `ir_code`
still `[]` and one RPC is sent with the send-IR method and empty
irCode, returning the gateway response. -/
theorem C1_amended_ac_unknown_action (env : Env) (cfg : Config)
    (name : String) (dc : DeviceConfig) (action : String)
    (level : Option Int) (m : Option String) (t : Option Int)
    (hdev : lookup' cfg.devices name = some dc)
    (hty : dc.type = "AC")
    (h1 : action ≠ "on") (h2 : action ≠ "off")
    (h3 : action ≠ "set_mode") (h4 : action ≠ "set_temperature")
    (c0 : List (String × String)) (b0 : String)
    (hprobe : env.resp 0 = NetResp.ok 200 c0 b0)
    (c1 : List (String × String)) (b1 : String)
    (hpost : env.resp 1 = NetResp.ok 200 c1 b1) :
    (control_device env (initSt cfg) name action level m t).1 =
      Except.ok b1 ∧
    rpcCalls ((control_device env (initSt cfg) name action level m t).2).calls =
      [Call.rpc ("http://" ++ cfg.gateway_ip ++ "/cgi-bin/rpc_bridge")
        "RPC_ZCL_Send_IR_Code"
        [("entity", JVal.s dc.entity), ("index", JVal.i 1),
         ("repeat", JVal.i 0), ("codeType", JVal.i 0),
         ("irCode", JVal.arr [])]
        env.now cfg.cookie] := by
  have e1 : (action == "on") = false := by simp [h1]
  have e2 : (action == "off") = false := by simp [h2]
  have e3 : (action == "set_mode") = false := by simp [h3]
  have e4 : (action == "set_temperature") = false := by simp [h4]
  rw [control_device_of_valid env cfg name action level m t c0 b0 hprobe]
  simp [control_device_rest, dispatch, validSt, base_url, hdev, hty,
    e1, e2, e3, e4, hpost, rpcCalls, isRpc, Except.map]

/-- Witness for the amended C1 at action "blast" on the ac1 fixture. -/
theorem C1_amended_witness :
    (control_device (envOf [NetResp.ok 200 [] "h", NetResp.ok 200 [] "r"])
        (initSt cfg0) "ac1" "blast" none none none).1 = Except.ok "r" ∧
    rpcCalls ((control_device (envOf [NetResp.ok 200 [] "h", NetResp.ok 200 [] "r"])
        (initSt cfg0) "ac1" "blast" none none none).2).calls =
      [Call.rpc ("http://" ++ cfg0.gateway_ip ++ "/cgi-bin/rpc_bridge")
        "RPC_ZCL_Send_IR_Code"
        [("entity", JVal.s dcAC.entity), ("index", JVal.i 1),
         ("repeat", JVal.i 0), ("codeType", JVal.i 0),
         ("irCode", JVal.arr [])]
        (envOf [NetResp.ok 200 [] "h", NetResp.ok 200 [] "r"]).now cfg0.cookie] :=
  C1_amended_ac_unknown_action (envOf [NetResp.ok 200 [] "h", NetResp.ok 200 [] "r"])
    cfg0 "ac1" dcAC "blast" none none none (by decide) rfl
    (by decide) (by decide) (by decide) (by decide) [] "h" rfl [] "r" rfl

/-- C2 counterexample: when the gateway answers the control RPC with
status 403, the surfaced error carries status 403, not 500, refuting the
claim that a non-success gateway status maps to 500. -/
theorem C2_counterexample :
    resultStatus (control_device (envOf [NetResp.ok 200 [] "h", NetResp.ok 403 [] "x"])
        (initSt cfg0) "sw1" "on" none none none).1 = some 403 ∧
    resultStatus (control_device (envOf [NetResp.ok 200 [] "h", NetResp.ok 403 [] "x"])
        (initSt cfg0) "sw1" "on" none none none).1 ≠ some 500 := by
  decide

/-- C2 amended: a non-success gateway status on the RPC POST surfaces as
an HTTPException carrying the SAME upstream status code, for both
control_device and read_device_status; only a transport failure maps
to 500. -/
theorem C2_amended_upstream_status (env : Env) (cfg : Config)
    (name : String) (dc : DeviceConfig)
    (hdev : lookup' cfg.devices name = some dc)
    (hty : dc.type = "SWITCH")
    (c0 : List (String × String)) (b0 : String)
    (hprobe : env.resp 0 = NetResp.ok 200 c0 b0) :
    (∀ st c1 b1, st ≠ 200 → env.resp 1 = NetResp.ok st c1 b1 →
      (control_device env (initSt cfg) name "on" none none none).1 =
        Except.error (PyErr.httpException st "Device control failed") ∧
      resultStatus (control_device env (initSt cfg) name "on" none none none).1 =
        some st) ∧
    (∀ msg, env.resp 1 = NetResp.exn msg →
      (control_device env (initSt cfg) name "on" none none none).1 =
        Except.error (PyErr.httpException 500
          ("Device control request failed: " ++ msg))) ∧
    (∀ st c1 b1, st ≠ 200 → env.resp 1 = NetResp.ok st c1 b1 →
      (read_device_status env (initSt cfg) name).1 =
        Except.error (PyErr.httpException st "Device status read failed") ∧
      resultStatus (read_device_status env (initSt cfg) name).1 = some st) ∧
    (∀ msg, env.resp 1 = NetResp.exn msg →
      (read_device_status env (initSt cfg) name).1 =
        Except.error (PyErr.httpException 500
          ("Device status read request failed: " ++ msg))) := by
  rw [control_device_of_valid env cfg name "on" none none none c0 b0 hprobe,
      read_device_status_of_valid env cfg name c0 b0 hprobe]
  refine ⟨fun st c1 b1 hst h1 => ?_, fun msg h1 => ?_,
    fun st c1 b1 hst h1 => ?_, fun msg h1 => ?_⟩
  · have hne : (st == 200) = false := by simp [hst]
    simp [control_device_rest, dispatch, validSt, base_url, hdev, hty, h1,
      hne, resultStatus, httpStatusOf]
  · simp [control_device_rest, dispatch, validSt, base_url, hdev, hty, h1]
  · have hne : (st == 200) = false := by simp [hst]
    simp [read_device_status_rest, statusMethods, runQueries, validSt,
      base_url, hdev, hty, h1, hne, resultStatus, httpStatusOf]
  · simp [read_device_status_rest, statusMethods, runQueries, validSt,
      base_url, hdev, hty, h1]

/-- Witness for the amended C2: upstream 403 surfaces as 403 and a
transport failure surfaces as 500, for both operations. -/
theorem C2_amended_witness :
    (control_device (envOf [NetResp.ok 200 [] "h", NetResp.ok 403 [] "x"])
        (initSt cfg0) "sw1" "on" none none none).1 =
      Except.error (PyErr.httpException 403 "Device control failed") ∧
    (control_device (envOf [NetResp.ok 200 [] "h", NetResp.exn "reset"])
        (initSt cfg0) "sw1" "on" none none none).1 =
      Except.error (PyErr.httpException 500
        ("Device control request failed: " ++ "reset")) ∧
    resultStatus (read_device_status (envOf [NetResp.ok 200 [] "h", NetResp.ok 502 [] "x"])
        (initSt cfg0) "sw1").1 = some 502 ∧
    (read_device_status (envOf [NetResp.ok 200 [] "h", NetResp.exn "reset"])
        (initSt cfg0) "sw1").1 =
      Except.error (PyErr.httpException 500
        ("Device status read request failed: " ++ "reset")) := by
  refine ⟨?_, ?_, ?_, ?_⟩
  · exact ((C2_amended_upstream_status (envOf [NetResp.ok 200 [] "h", NetResp.ok 403 [] "x"])
      cfg0 "sw1" dcSW (by decide) rfl [] "h" rfl).1 403 [] "x" (by decide) rfl).1
  · exact (C2_amended_upstream_status (envOf [NetResp.ok 200 [] "h", NetResp.exn "reset"])
      cfg0 "sw1" dcSW (by decide) rfl [] "h" rfl).2.1 "reset" rfl
  · exact ((C2_amended_upstream_status (envOf [NetResp.ok 200 [] "h", NetResp.ok 502 [] "x"])
      cfg0 "sw1" dcSW (by decide) rfl [] "h" rfl).2.2.1 502 [] "x" (by decide) rfl).2
  · exact (C2_amended_upstream_status (envOf [NetResp.ok 200 [] "h", NetResp.exn "reset"])
      cfg0 "sw1" dcSW (by decide) rfl [] "h" rfl).2.2.2 "reset" rfl

/-- C3 counterexample: when the login request fails at the transport
level, `login` raises HTTPException 500, not the claimed 401. -/
theorem C3_counterexample :
    resultStatus (login (envOf [NetResp.exn "refused"]) (initSt cfg0)).1 =
      some 500 ∧
    resultStatus (login (envOf [NetResp.exn "refused"]) (initSt cfg0)).1 ≠
      some 401 := by
  decide

/-- C3 amended: `login` fails with HTTPException 401 when the gateway
answers with a non-success status, with HTTPException 500 on transport
failure; on success it stores the user_id cookie from the response and
persists it via save_config. -/
theorem C3_amended_login (env : Env) (cfg : Config) :
    (∀ st cs b, env.resp 0 = NetResp.ok st cs b → st ≠ 200 →
      (login env (initSt cfg)).1 =
        Except.error (PyErr.httpException 401 "Login failed")) ∧
    (∀ msg, env.resp 0 = NetResp.exn msg →
      (login env (initSt cfg)).1 =
        Except.error (PyErr.httpException 500 ("Login request failed: " ++ msg))) ∧
    (∀ cs b ck, env.resp 0 = NetResp.ok 200 cs b →
      lookup' cs "user_id" = some ck →
      (login env (initSt cfg)).1 = Except.ok () ∧
      ((login env (initSt cfg)).2).backend.cookie = ck ∧
      ((login env (initSt cfg)).2).saved = [{ cfg with cookie := ck }]) := by
  refine ⟨fun st cs b h hst => ?_, fun msg h => ?_, fun cs b ck h hck => ?_⟩
  · have hne : (st == 200) = false := by simp [hst]
    simp [login, initSt, h, hne]
  · simp [login, initSt, h]
  · simp [login, initSt, h, hck]

/-- Witness for the amended C3: a 403 login answer yields 401, a
transport failure yields 500, and a 200 answer carrying user_id abc123
stores and persists that cookie. -/
theorem C3_amended_witness :
    (login (envOf [NetResp.ok 403 [] "x"]) (initSt cfg0)).1 =
      Except.error (PyErr.httpException 401 "Login failed") ∧
    (login (envOf [NetResp.exn "refused"]) (initSt cfg0)).1 =
      Except.error (PyErr.httpException 500 ("Login request failed: " ++ "refused")) ∧
    (login (envOf [NetResp.ok 200 [("user_id", "abc123")] "b"]) (initSt cfg0)).1 =
      Except.ok () ∧
    ((login (envOf [NetResp.ok 200 [("user_id", "abc123")] "b"]) (initSt cfg0)).2).backend.cookie =
      "abc123" ∧
    ((login (envOf [NetResp.ok 200 [("user_id", "abc123")] "b"]) (initSt cfg0)).2).saved =
      [{ cfg0 with cookie := "abc123" }] := by
  refine ⟨?_, ?_, ?_, ?_, ?_⟩
  · exact (C3_amended_login (envOf [NetResp.ok 403 [] "x"]) cfg0).1
      403 [] "x" rfl (by decide)
  · exact (C3_amended_login (envOf [NetResp.exn "refused"]) cfg0).2.1 "refused" rfl
  · exact ((C3_amended_login (envOf [NetResp.ok 200 [("user_id", "abc123")] "b"]) cfg0).2.2
      [("user_id", "abc123")] "b" "abc123" rfl (by decide)).1
  · exact ((C3_amended_login (envOf [NetResp.ok 200 [("user_id", "abc123")] "b"]) cfg0).2.2
      [("user_id", "abc123")] "b" "abc123" rfl (by decide)).2.1
  · exact ((C3_amended_login (envOf [NetResp.ok 200 [("user_id", "abc123")] "b"]) cfg0).2.2
      [("user_id", "abc123")] "b" "abc123" rfl (by decide)).2.2

/-! ### Trace lemmas for the session-discipline claim -/

theorem isRpc_not_probe (c : Call) (h : isRpc c = true) : isProbe c = false := by
  cases c <;> simp_all [isRpc, isProbe]

theorem isRpc_not_login (c : Call) (h : isRpc c = true) : isLogin c = false := by
  cases c <;> simp_all [isRpc, isLogin]

theorem filter_probe_of_rpc (ext : List Call)
    (h : ∀ c ∈ ext, isRpc c = true) : ext.filter isProbe = [] := by
  rw [List.filter_eq_nil_iff]
  intro c hc
  simp [isRpc_not_probe c (h c hc)]

theorem filter_login_of_rpc (ext : List Call)
    (h : ∀ c ∈ ext, isRpc c = true) : ext.filter isLogin = [] := by
  rw [List.filter_eq_nil_iff]
  intro c hc
  simp [isRpc_not_login c (h c hc)]

theorem is_cookie_valid_snd (env : Env) (s : St) :
    (is_cookie_valid env s).2 =
      { s with
          idx := s.idx + 1,
          calls := s.calls ++
            [Call.probe (base_url s.backend ++ "/home.html") s.backend.cookie] } := by
  unfold is_cookie_valid
  cases env.resp s.idx <;> rfl

theorem login_calls (env : Env) (s : St) :
    ((login env s).2).calls =
      s.calls ++ [Call.loginReq (base_url s.backend ++ "/cgi-bin/admin")] := by
  unfold login
  cases env.resp s.idx with
  | ok status cookies body =>
      by_cases h : (status == 200) = true <;> simp [h]
  | exn msg => simp

theorem control_device_rest_calls (env : Env) (s1 : St) (name action : String)
    (level : Option Int) (m : Option String) (t : Option Int) :
    ∃ ext, ((control_device_rest env s1 name action level m t).2).calls =
      s1.calls ++ ext ∧ ∀ c ∈ ext, isRpc c = true := by
  rcases hl : lookup' s1.backend.config.devices name with _ | dc
  · exact ⟨[], by unfold control_device_rest; simp [hl], by simp⟩
  · rcases hd : dispatch dc action level m t with e | ⟨method, params⟩
    · exact ⟨[], by unfold control_device_rest; simp [hl, hd], by simp⟩
    · refine ⟨[Call.rpc (base_url s1.backend ++ "/cgi-bin/rpc_bridge") method
        params env.now s1.backend.cookie], ?_, by simp [isRpc]⟩
      unfold control_device_rest
      rcases hr : env.resp s1.idx with ⟨status, cs, b⟩ | msg
      · by_cases h : (status == 200) = true <;> simp [hl, hd, hr, h]
      · simp [hl, hd, hr]

theorem runQueries_calls (env : Env) (dc : DeviceConfig) (ms : List String) :
    ∀ s acc, ∃ ext, ((runQueries env dc ms s acc).2).calls = s.calls ++ ext ∧
      ∀ c ∈ ext, isRpc c = true := by
  induction ms with
  | nil => intro s acc; exact ⟨[], by simp [runQueries], by simp⟩
  | cons m ms ih =>
      intro s acc
      rcases hr : env.resp s.idx with ⟨status, cs, b⟩ | msg
      · by_cases h : (status == 200) = true
        · obtain ⟨ext, hext, hall⟩ := ih
            { s with
                idx := s.idx + 1,
                calls := s.calls ++
                  [Call.rpc (base_url s.backend ++ "/cgi-bin/rpc_bridge") m
                    [("entity", JVal.s dc.entity)] env.now s.backend.cookie] }
            (acc ++ [(m, b)])
          refine ⟨Call.rpc (base_url s.backend ++ "/cgi-bin/rpc_bridge") m
              [("entity", JVal.s dc.entity)] env.now s.backend.cookie :: ext, ?_, ?_⟩
          · unfold runQueries
            simp only [hr, h, if_true]
            rw [hext]
            simp
          · intro c hc
            rcases List.mem_cons.mp hc with hc | hc
            · simp [hc, isRpc]
            · exact hall c hc
        · refine ⟨[Call.rpc (base_url s.backend ++ "/cgi-bin/rpc_bridge") m
              [("entity", JVal.s dc.entity)] env.now s.backend.cookie], ?_, by simp [isRpc]⟩
          unfold runQueries
          simp [hr, h]
      · refine ⟨[Call.rpc (base_url s.backend ++ "/cgi-bin/rpc_bridge") m
            [("entity", JVal.s dc.entity)] env.now s.backend.cookie], ?_, by simp [isRpc]⟩
        unfold runQueries
        simp [hr]

theorem read_device_status_rest_calls (env : Env) (s1 : St) (name : String) :
    ∃ ext, ((read_device_status_rest env s1 name).2).calls = s1.calls ++ ext ∧
      ∀ c ∈ ext, isRpc c = true := by
  rcases hl : lookup' s1.backend.config.devices name with _ | dc
  · exact ⟨[], by unfold read_device_status_rest; simp [hl], by simp⟩
  · rcases hm : statusMethods dc with e | ms
    · exact ⟨[], by unfold read_device_status_rest; simp [hl, hm], by simp⟩
    · obtain ⟨ext, hext, hall⟩ := runQueries_calls env dc ms s1 []
      refine ⟨ext, ?_, hall⟩
      unfold read_device_status_rest
      simp only [hl, hm]
      exact hext

/-- The session discipline of any backend operation of the shape
`if not is_cookie_valid: login` followed by a continuation that only
issues RPC POSTs: the probe happens exactly once and first, login
happens exactly once iff the probe said invalid and then immediately
after the probe, and the continuation issues no further probe or
login. -/
theorem session_discipline_generic {α : Type} (env : Env) (cfg : Config)
    (rest : St → Except PyErr α × St)
    (hrest : ∀ s1, ∃ ext, ((rest s1).2).calls = s1.calls ++ ext ∧
      ∀ c ∈ ext, isRpc c = true)
    (out : Except PyErr α × St)
    (hout : out = match ensure_session env (initSt cfg) with
      | (Except.error e, s1) => (Except.error e, s1)
      | (Except.ok _, s1) => rest s1) :
    ((out.2.calls.filter isProbe).length = 1 ∧
     (out.2.calls.filter isLogin).length =
       (if (is_cookie_valid env (initSt cfg)).1 then 0 else 1) ∧
     headIs isProbe out.2.calls = true ∧
     ((is_cookie_valid env (initSt cfg)).1 = false →
       headIs isLogin (out.2.calls.drop 1) = true)) := by
  have hsnd : (is_cookie_valid env (initSt cfg)).2 = validSt cfg := by
    rw [is_cookie_valid_snd]
    simp [initSt, validSt, base_url]
  cases hb : (is_cookie_valid env (initSt cfg)).1 with
  | true =>
      have hic : is_cookie_valid env (initSt cfg) = (true, validSt cfg) := by
        rw [← hb, ← hsnd]
      have hes : ensure_session env (initSt cfg) = (Except.ok (), validSt cfg) := by
        simp [ensure_session, hic]
      obtain ⟨ext, hext, hall⟩ := hrest (validSt cfg)
      have hcalls : out.2.calls = (validSt cfg).calls ++ ext := by
        rw [hout, hes]; exact hext
      rw [hcalls]
      refine ⟨?_, ?_, ?_, ?_⟩
      · simp [validSt, List.filter_append, filter_probe_of_rpc ext hall, isProbe]
      · simp [hb, validSt, List.filter_append, filter_login_of_rpc ext hall, isLogin]
      · simp [validSt, headIs, isProbe]
      · intro hfalse; simp at hfalse
  | false =>
      have hic : is_cookie_valid env (initSt cfg) = (false, validSt cfg) := by
        rw [← hb, ← hsnd]
      have hes : ensure_session env (initSt cfg) = login env (validSt cfg) := by
        simp [ensure_session, hic]
      have hlc : ((login env (validSt cfg)).2).calls =
          (validSt cfg).calls ++
            [Call.loginReq ("http://" ++ cfg.gateway_ip ++ "/cgi-bin/admin")] := by
        rw [login_calls]
        simp [validSt, base_url]
      rcases hl : login env (validSt cfg) with ⟨res, s2⟩
      rw [hl] at hlc
      have hcalls2 : s2.calls =
          [Call.probe ("http://" ++ cfg.gateway_ip ++ "/home.html") cfg.cookie,
           Call.loginReq ("http://" ++ cfg.gateway_ip ++ "/cgi-bin/admin")] := by
        rw [hlc]; simp [validSt]
      cases res with
      | error e =>
          have hcalls : out.2.calls = s2.calls := by
            rw [hout, hes, hl]
          rw [hcalls, hcalls2]
          refine ⟨?_, ?_, ?_, ?_⟩
          · simp [isProbe, isLogin]
          · simp [hb, isProbe, isLogin]
          · simp [headIs, isProbe]
          · intro _; simp [headIs, isLogin]
      | ok u =>
          obtain ⟨ext, hext, hall⟩ := hrest s2
          have hcalls : out.2.calls = s2.calls ++ ext := by
            rw [hout, hes, hl]; exact hext
          rw [hcalls, hcalls2]
          refine ⟨?_, ?_, ?_, ?_⟩
          · simp [List.filter_append, filter_probe_of_rpc ext hall, isProbe, isLogin]
          · simp [hb, List.filter_append, filter_login_of_rpc ext hall, isProbe, isLogin]
          · simp [headIs, isProbe]
          · intro _; simp [headIs, isLogin]

/-- C4: in every `control_device` and every `read_device_status` request
from a fresh backend, the session validity probe runs exactly once and
is the first request; when it reports invalid, exactly one login attempt
follows, immediately after the probe and before the operation; when it
reports valid, login is never called; and no second probe occurs. -/
theorem C4_session_discipline (env : Env) (cfg : Config) (name action : String)
    (level : Option Int) (m : Option String) (t : Option Int) :
    ((((control_device env (initSt cfg) name action level m t).2).calls.filter isProbe).length = 1 ∧
     (((control_device env (initSt cfg) name action level m t).2).calls.filter isLogin).length =
       (if (is_cookie_valid env (initSt cfg)).1 then 0 else 1) ∧
     headIs isProbe ((control_device env (initSt cfg) name action level m t).2).calls = true ∧
     ((is_cookie_valid env (initSt cfg)).1 = false →
       headIs isLogin (((control_device env (initSt cfg) name action level m t).2).calls.drop 1) = true)) ∧
    ((((read_device_status env (initSt cfg) name).2).calls.filter isProbe).length = 1 ∧
     (((read_device_status env (initSt cfg) name).2).calls.filter isLogin).length =
       (if (is_cookie_valid env (initSt cfg)).1 then 0 else 1) ∧
     headIs isProbe ((read_device_status env (initSt cfg) name).2).calls = true ∧
     ((is_cookie_valid env (initSt cfg)).1 = false →
       headIs isLogin (((read_device_status env (initSt cfg) name).2).calls.drop 1) = true)) := by
  constructor
  · exact session_discipline_generic env cfg
      (fun s1 => control_device_rest env s1 name action level m t)
      (fun s1 => control_device_rest_calls env s1 name action level m t)
      (control_device env (initSt cfg) name action level m t) rfl
  · exact session_discipline_generic env cfg
      (fun s1 => read_device_status_rest env s1 name)
      (fun s1 => read_device_status_rest_calls env s1 name)
      (read_device_status env (initSt cfg) name) rfl

/-- Witness for C4: a request with a valid cookie (no login) and one
with an invalid cookie (probe then exactly one login, then the RPC). -/
theorem C4_session_discipline_witness :
    (((control_device (envOf [NetResp.ok 200 [] "h", NetResp.ok 200 [] "r"])
        (initSt cfg0) "sw1" "on" none none none).2).calls.filter isProbe).length = 1 ∧
     (((control_device (envOf [NetResp.ok 200 [] "h", NetResp.ok 200 [] "r"])
        (initSt cfg0) "sw1" "on" none none none).2).calls.filter isLogin).length = 0 ∧
     (((control_device
        (envOf [NetResp.ok 401 [] "x", NetResp.ok 200 [("user_id", "abc")] "l",
          NetResp.ok 200 [] "r"])
        (initSt cfg0) "sw1" "on" none none none).2).calls.filter isProbe).length = 1 ∧
     (((control_device
        (envOf [NetResp.ok 401 [] "x", NetResp.ok 200 [("user_id", "abc")] "l",
          NetResp.ok 200 [] "r"])
        (initSt cfg0) "sw1" "on" none none none).2).calls.filter isLogin).length = 1 ∧
     headIs isLogin (((control_device
        (envOf [NetResp.ok 401 [] "x", NetResp.ok 200 [("user_id", "abc")] "l",
          NetResp.ok 200 [] "r"])
        (initSt cfg0) "sw1" "on" none none none).2).calls.drop 1) = true := by
  have h1 := (C4_session_discipline (envOf [NetResp.ok 200 [] "h", NetResp.ok 200 [] "r"])
    cfg0 "sw1" "on" none none none).1
  have h2 := (C4_session_discipline
    (envOf [NetResp.ok 401 [] "x", NetResp.ok 200 [("user_id", "abc")] "l",
      NetResp.ok 200 [] "r"])
    cfg0 "sw1" "on" none none none).1
  refine ⟨h1.1, ?_, h2.1, ?_, h2.2.2.2 (by decide)⟩
  · have := h1.2.1
    rwa [if_pos (by decide)] at this
  · have := h2.2.1
    rwa [if_neg (by decide)] at this

end SchneiderGateway
